import Mathlib

/-!
Shallow embedding of the substrate-system/template-netlify-app repository:
the client-side route table and matcher, the reactive state container
(`src/state.ts`), the navigation handler, the view composition in the two
entry-point variants, and the two Netlify serverless function handlers.
-/

set_option autoImplicit false

namespace App

/-! ## Reactive cells

The repository stores its observable values in cells from the third-party
`@preact/signals` library. A cell is modelled as a value plus a version
counter: the version increases exactly when a set call publishes a distinct
value, which models one "changed" notification to subscribers. -/

/-- Modelled from the spec: the observable cell of the signals library ("a holder
of a single value that notifies interested readers when the value changes").
The library compares the incoming value with the stored one and skips the
notification when they are identical (dedup), which `version` records. -/
structure Signal (α : Type) where
  value : α
  version : Nat
deriving DecidableEq, Repr

/-- Modelled from the spec: writing to an observable cell. If the new value
equals the stored one the cell is unchanged (no notification); otherwise the
value is replaced and the version (notification count) increases. -/
def sigSet {α : Type} [DecidableEq α] (s : Signal α) (v : α) : Signal α :=
  if v = s.value then s else ⟨v, s.version + 1⟩

/-- Fresh cell as created by `signal(initialValue)`. -/
def signal {α : Type} (v : α) : Signal α := ⟨v, 0⟩

/-! ## State container (`src/state.ts`, in `src/unnamed/part_001`) -/

/-- The state object returned by `State()`: a route cell and a counter cell.
The `_setRoute` function member is modelled as the top-level `setRoute`
below, taking the state explicitly. -/
structure AppState where
  route : Signal String
  count : Signal Int
deriving DecidableEq, Repr

/-- `State()` constructor from src/state.ts: `count` starts at `signal(0)`
and `route` starts at `signal(location.pathname + location.search)`. The
browser-ambient `location` is passed in as its two components. -/
def State (pathname search : String) : AppState :=
  { count := signal (0 : Int)
    route := signal (pathname ++ search) }

/-- `State.Increase` from src/state.ts: `state.count.value++`. -/
def State.Increase (st : AppState) : AppState :=
  { st with count := sigSet st.count (st.count.value + 1) }

/-- `State.Decrease` from src/state.ts: `state.count.value--`. -/
def State.Decrease (st : AppState) : AppState :=
  { st with count := sigSet st.count (st.count.value - 1) }

/-! ## Navigation handler (the `onRoute` callback in src/state.ts)

The callback receives the new path and an event data record with a
`popstate` flag and the recorded scroll offset. It replaces the first
occurrence of the string `/template-ts-preact-htm/` in the path with `/`
(JavaScript `String.prototype.replace` with a string pattern replaces only
the first occurrence), publishes the result to the route cell, and then
scrolls: to the recorded offset on a history pop, to the top otherwise. -/

/-- Event data passed by the `route-event` library to the `onRoute`
callback. -/
structure RouteData where
  popstate : Bool
  scrollX : Int
  scrollY : Int
deriving DecidableEq, Repr

/-- JavaScript `s.replace(pat, rep)` with a string pattern: replace the first
occurrence of `pat` in the character list, left to right. -/
def replaceFirstAux (pat rep : List Char) : List Char → List Char
  | [] => []
  | c :: cs =>
    if pat.isPrefixOf (c :: cs) then rep ++ (c :: cs).drop pat.length
    else c :: replaceFirstAux pat rep cs

/-- JavaScript `s.replace(pat, rep)` on strings (first occurrence only). -/
def jsReplace (s pat rep : String) : String :=
  ⟨replaceFirstAux pat.data rep.data s.data⟩

/-- The fixed deployment sub-path that the handler rewrites ("for github
pages"). -/
def basePath : String := "/template-ts-preact-htm/"

/-- The `onRoute` callback from src/state.ts. Returns the updated state and
the `(x, y)` arguments the handler passes to `window.scrollTo`: the recorded
offset when `popstate` is set, `(0, 0)` otherwise. -/
def onRouteHandler (st : AppState) (path : String) (data : RouteData) :
    AppState × Int × Int :=
  ({ st with route := sigSet st.route (jsReplace path basePath "/") },
   if data.popstate then (data.scrollX, data.scrollY) else (0, 0))

/-- `_setRoute` / `onRoute.setRoute`: programmatic navigation pushes a new
history entry (not a popstate) and runs the `onRoute` callback with the
given path. -/
def setRoute (p : String) (st : AppState) : AppState :=
  (onRouteHandler st p ⟨false, 0, 0⟩).1

/-! ## Route matcher

The matching algorithm lives in the third-party `@substrate-system/routes`
package, which is not part of this repository; only the registration glue
(`src/routes/index.ts`) is. The matcher is therefore modelled from the
contract in §4.1 of the spec. -/

/-- Modelled from the spec: a pattern segment is a literal string, a named
parameter placeholder, or a wildcard (the pattern-syntax markers are `:name`
and `*`). The matching algorithm itself is missing from src/ (it lives in
the third-party routes package). -/
inductive Seg where
  | lit (s : String)
  | param (name : String)
  | wildcard
deriving DecidableEq, Repr

/-- Split a string into segments on the slash character, as the spec
prescribes for both patterns and input paths. -/
def splitSlashAux (acc : List Char) : List Char → List String
  | [] => [⟨acc.reverse⟩]
  | c :: cs =>
    if c = '/' then (⟨acc.reverse⟩ : String) :: splitSlashAux [] cs
    else splitSlashAux (c :: acc) cs

/-- Split a path string on slashes: `"/contact"` gives `["", "contact"]`. -/
def splitSlash (s : String) : List String := splitSlashAux [] s.data

/-- Rejoin segments with slashes (for the captured wildcard remainder). -/
def joinSlash : List String → String
  | [] => ""
  | [s] => s
  | s :: rest => s ++ "/" ++ joinSlash rest

/-- Modelled from the spec: classify one pattern segment (`*` is a wildcard,
a leading colon marks a named parameter, anything else is a literal). -/
def parseSeg (s : String) : Seg :=
  if s = "*" then .wildcard
  else
    match s.data with
    | ':' :: rest => .param ⟨rest⟩
    | _ => .lit s

/-- Modelled from the spec: a RoutePattern is the ordered sequence of parsed
segments of the pattern string. -/
def parsePattern (p : String) : List Seg := (splitSlash p).map parseSeg

/-- Modelled from the spec: segment-by-segment matching. A literal must be
equal exactly; a named parameter matches any single non-empty segment and
captures it; a wildcard must be last and consumes all remaining segments; a
non-wildcard pattern matches only with exactly the same segment count.
Returns the captured parameter bindings on success. -/
def matchSegs : List Seg → List String → Option (List (String × String))
  | [], [] => some []
  | [.wildcard], rest => some [("*", joinSlash rest)]
  | .lit l :: ps, x :: xs =>
    if l = x then matchSegs ps xs else none
  | .param n :: ps, x :: xs =>
    if x ≠ "" then (matchSegs ps xs).map (fun bs => (n, x) :: bs) else none
  | _, _ => none

/-- The handler factories registered in `src/routes/index.ts`: the routes
return the `HomeRoute` and `ContactRoute` components. -/
inductive Handler where
  | Home
  | Contact
deriving DecidableEq, Repr

/-- A route table: pattern strings paired with handler factories, in
registration order (first-registered wins on ties). -/
def RouteTable : Type := List (String × Handler)

/-- The result of a successful match: the resolved handler factory (the
`action`) and the captured parameter bindings. -/
structure MatchResult where
  action : Handler
  params : List (String × String)
deriving DecidableEq, Repr

/-- Modelled from the spec: `router.match(path)`. Iterate the table in
registration order and return the first full match; `none` is the explicit
no-match sentinel. Pure, total: it never raises. -/
def matchTable : List (String × Handler) → String → Option MatchResult
  | [], _ => none
  | (pat, h) :: rest, path =>
    match matchSegs (parsePattern pat) (splitSlash path) with
    | some bs => some ⟨h, bs⟩
    | none => matchTable rest path

/-- `_Router()` from `src/routes/index.ts`: registers `/` mapped to the Home
handler, then `/contact` mapped to the Contact handler, in that order. -/
def appRouter : List (String × Handler) :=
  [("/", Handler.Home), ("/contact", Handler.Contact)]

/-! ## View composition (the two `Example` entry-point variants) -/

/-- What the view layer renders for a path. -/
inductive View where
  | notFound
  | page (h : Handler)
deriving DecidableEq, Repr

/-- The `Example` component in `src/index.ts`: match the route, render the
404 view when there is no match (or no action), otherwise invoke the
matched action. -/
def ExampleView (p : String) : View :=
  match matchTable appRouter p with
  | none => .notFound
  | some m => .page m.action

/-- The `Example` component variant in `src/unnamed/part_001` (lines 72-81):
it evaluates `match.action(match, state.route.value)` BEFORE the `if
(!match)` check, so on a no-match the null dereference throws a TypeError
and the 404 branch is never reached. -/
def ExampleViewPart001 (p : String) : Except String View :=
  match matchTable appRouter p with
  | none => .error "TypeError: match is null"
  | some m => .ok (.page m.action)

/-! ## Netlify serverless handlers -/

/-- A JSON object is modelled as an association list from keys to optional
string values (`none` models an `undefined` member). -/
def JsonObj : Type := List (String × Option String)

/-- The request seen by the modern-style function in
`netlify/functions/example/example.ts`: the HTTP method and the captured
path parameters (`context.params`). -/
structure NFRequest where
  method : String
  params : List (String × String)
deriving DecidableEq, Repr

/-- A response: status code and optional JSON body. -/
structure NFResponse where
  status : Nat
  body : Option (List (String × Option String))
deriving DecidableEq, Repr

/-- The default export of `netlify/functions/example/example.ts`: non-GET
requests get `405` with a null body; GET requests get `200` with a JSON
body `\x7b param, splat \x7d` echoing those two captured path parameters. -/
def exampleDefault (req : NFRequest) : NFResponse :=
  if req.method ≠ "GET" then ⟨405, none⟩
  else ⟨200, some [("param", req.params.lookup "param"),
                   ("splat", req.params.lookup "splat")]⟩

/-- The event seen by the legacy-style function in `src/unnamed/part_000`:
the HTTP method and the query-string parameters of the request. -/
structure HandlerEvent where
  httpMethod : String
  queryStringParameters : List (String × String)
deriving DecidableEq, Repr

/-- The `handler` export of the legacy-style function: non-GET requests get
`405` with no body; GET requests get `200` with the fixed JSON body
`\x7b hello: "hello" \x7d` (the request parameters are never read). -/
def handler (ev : HandlerEvent) : NFResponse :=
  if ev.httpMethod ≠ "GET" then ⟨405, none⟩
  else ⟨200, some [("hello", some "hello")]⟩

/-- Whether a response body echoes every given request parameter: the body
exists and contains each key/value pair of the parameter list. -/
def bodyEchoes (resp : NFResponse) (params : List (String × String)) : Bool :=
  match resp.body with
  | none => false
  | some b => params.all fun kv => b.contains (kv.1, some kv.2)

/-! ## Operation sequences (for the frame property) -/

/-- A counter operation: `State.Increase` or `State.Decrease`. -/
inductive CounterOp where
  | inc
  | dec
deriving DecidableEq, Repr

/-- Apply one counter operation. -/
def applyCounterOp : CounterOp → AppState → AppState
  | .inc => State.Increase
  | .dec => State.Decrease

/-- Apply a sequence of counter operations, oldest first. -/
def applyCounterOps (ops : List CounterOp) (st : AppState) : AppState :=
  ops.foldl (fun s o => applyCounterOp o s) st

/-- Apply a sequence of navigation events, oldest first (dropping the
scroll component). -/
def applyNavEvents (evs : List (String × RouteData)) (st : AppState) :
    AppState :=
  evs.foldl (fun s e => (onRouteHandler s e.1 e.2).1) st

/-- The reading of the path rewrite that follows the words of the spec:
the fixed deployment sub-path is stripped only when it is a prefix of the
path, and a path not starting with it is left unchanged. Stated for
comparison with the jsReplace-based behavior of the code. -/
def stripBase (p : String) : String :=
  if basePath.data.isPrefixOf p.data then ⟨'/' :: p.data.drop basePath.data.length⟩
  else p

/-! ## Helper lemmas -/

theorem sigSet_value {α : Type} [DecidableEq α] (s : Signal α) (v : α) :
    (sigSet s v).value = v := by
  unfold sigSet; split
  case isTrue h => exact h.symm
  case isFalse => rfl

theorem sigSet_idem {α : Type} [DecidableEq α] (s : Signal α) (v : α) :
    sigSet (sigSet s v) v = sigSet s v := by
  have h : v = (sigSet s v).value := (sigSet_value s v).symm
  rw [sigSet, if_pos h]

theorem isPrefixOf_append (l t : List Char) : l.isPrefixOf (l ++ t) = true := by
  induction l with
  | nil => simp [List.isPrefixOf]
  | cons c cs ih => simp [List.isPrefixOf, ih]

theorem replaceFirstAux_append (pat rep t : List Char) (hne : pat ≠ []) :
    replaceFirstAux pat rep (pat ++ t) = rep ++ t := by
  cases pat with
  | nil => exact absurd rfl hne
  | cons c cs =>
    rw [List.cons_append, replaceFirstAux]
    rw [show (c :: (cs ++ t)) = ((c :: cs) ++ t) from rfl]
    rw [if_pos]
    · rw [List.drop_left]
    · simp [isPrefixOf_append (c :: cs) t]

theorem jsReplace_basePath (rest : String) :
    jsReplace (basePath ++ rest) basePath "/" = "/" ++ rest := by
  show (⟨replaceFirstAux basePath.data "/".data (basePath ++ rest).data⟩ : String)
      = "/" ++ rest
  rw [String.data_append, replaceFirstAux_append _ _ _ (by decide)]
  rfl

theorem applyCounterOp_route (o : CounterOp) (st : AppState) :
    (applyCounterOp o st).route = st.route := by cases o <;> rfl

theorem applyCounterOps_route (ops : List CounterOp) (st : AppState) :
    (applyCounterOps ops st).route = st.route := by
  induction ops generalizing st with
  | nil => rfl
  | cons o rest ih =>
    exact (ih (applyCounterOp o st)).trans (applyCounterOp_route o st)

theorem applyNavEvents_count (evs : List (String × RouteData)) (st : AppState) :
    (applyNavEvents evs st).count = st.count := by
  induction evs generalizing st with
  | nil => rfl
  | cons e rest ih => exact ih _

/-! ## Claim theorems -/

/-- C1: with the route table registering `/` mapped to Home first and
`/contact` mapped to Contact second, matching `/contact` returns the
Contact handler, matching `/unknown` returns the no-match sentinel, and
matching `/` returns the Home handler. -/
theorem c1_route_table_scenario :
    matchTable appRouter "/contact" = some ⟨Handler.Contact, []⟩ ∧
    matchTable appRouter "/unknown" = none ∧
    matchTable appRouter "/" = some ⟨Handler.Home, []⟩ := by
  refine ⟨by decide, by decide, by decide⟩

/-- C2: matching an unknown path returns the explicit no-match sentinel and
the `Example` view in src/index.ts renders the 404 view without invoking
any handler; however the `Example` variant in src/unnamed/part_001
dereferences `match.action` before its null check, so the same unmatched
path throws a TypeError there instead of rendering the not-found view. -/
theorem c2_unmatched_route_rendering :
    matchTable appRouter "/unknown" = none ∧
    ExampleView "/unknown" = View.notFound ∧
    ExampleViewPart001 "/unknown" = Except.error "TypeError: match is null" := by
  refine ⟨by decide, by decide, by rfl⟩

/-- C3 counterexample: a GET request to the legacy serverless endpoint
(`src/unnamed/part_000`) with a request parameter returns status 200 with
the fixed body `\x7b hello: "hello" \x7d`, which does not echo the request
parameter, contradicting the claim that every GET response echoes the
request parameters. -/
theorem c3_counterexample :
    handler ⟨"GET", [("param", "abc")]⟩ =
      ⟨200, some [("hello", some "hello")]⟩ ∧
    bodyEchoes (handler ⟨"GET", [("param", "abc")]⟩) [("param", "abc")] = false := by
  refine ⟨by decide, by decide⟩

/-- C3 amended: every non-GET request to either serverless endpoint gets
status 405 with an empty body; a GET to the modern endpoint
(`netlify/functions/example/example.ts`) gets status 200 with a JSON body
echoing the captured `param` and `splat` path parameters; a GET to the
legacy endpoint gets status 200 with the fixed JSON body
`\x7b hello: "hello" \x7d`, which does not echo request parameters. -/
theorem c3_amended_handlers (ev : HandlerEvent) (req : NFRequest) :
    (ev.httpMethod ≠ "GET" → handler ev = ⟨405, none⟩) ∧
    (ev.httpMethod = "GET" → handler ev = ⟨200, some [("hello", some "hello")]⟩) ∧
    (req.method ≠ "GET" → exampleDefault req = ⟨405, none⟩) ∧
    (req.method = "GET" → exampleDefault req =
      ⟨200, some [("param", req.params.lookup "param"),
                  ("splat", req.params.lookup "splat")]⟩) ∧
    (req.method = "GET" → ∀ v, req.params = [("param", v)] →
      bodyEchoes (exampleDefault req) req.params = true) := by
  refine ⟨?_, ?_, ?_, ?_, ?_⟩ <;> intros <;>
    simp_all [handler, exampleDefault, bodyEchoes, List.lookup]

/-- Witness for C3 amended at concrete requests. -/
theorem c3_amended_handlers_witness :
    handler ⟨"POST", []⟩ = ⟨405, none⟩ ∧
    handler ⟨"GET", []⟩ = ⟨200, some [("hello", some "hello")]⟩ ∧
    exampleDefault ⟨"POST", []⟩ = ⟨405, none⟩ ∧
    exampleDefault ⟨"GET", [("param", "abc")]⟩ =
      ⟨200, some [("param", some "abc"), ("splat", none)]⟩ ∧
    bodyEchoes (exampleDefault ⟨"GET", [("param", "abc")]⟩) [("param", "abc")]
      = true := by
  have h := c3_amended_handlers ⟨"POST", []⟩ ⟨"GET", [("param", "abc")]⟩
  have h2 := c3_amended_handlers ⟨"GET", []⟩ ⟨"POST", []⟩
  exact ⟨h.1 (by decide), h2.2.1 rfl, h2.2.2.1 (by decide),
    (h.2.2.2.1 rfl).trans (by decide), h.2.2.2.2 rfl "abc" rfl⟩

/-- C4: for every starting counter value, `State.Increase` followed
immediately by `State.Decrease` leaves the counter value unchanged. -/
theorem c4_increment_decrement_roundtrip (st : AppState) :
    (State.Decrease (State.Increase st)).count.value = st.count.value := by
  simp [State.Increase, State.Decrease, sigSet_value]

/-- C5: a freshly constructed state has counter 0; three `State.Increase`
calls followed by one `State.Decrease` yield 2; and each `State.Increase`
deterministically adds 1, observable immediately in the counter cell. -/
theorem c5_counter_start_and_scenario (pathname search : String) (st : AppState) :
    (State pathname search).count.value = 0 ∧
    (State.Decrease (State.Increase (State.Increase (State.Increase
      (State pathname search))))).count.value = 2 ∧
    (State.Increase st).count.value = st.count.value + 1 := by
  refine ⟨rfl, ?_, ?_⟩
  · simp [State, State.Increase, State.Decrease, sigSet_value, signal]
  · simp [State.Increase, sigSet_value]

/-- C6: calling `setRoute` twice consecutively with the same path leaves
the observable path value identical to calling it once, and since the
reactive cell deduplicates identical values, the second call produces no
second distinct change notification (the version is unchanged). -/
theorem c6_setRoute_idempotent (p : String) (st : AppState) :
    (setRoute p (setRoute p st)).route.value = (setRoute p st).route.value ∧
    (setRoute p (setRoute p st)).route.version = (setRoute p st).route.version := by
  have h : (setRoute p (setRoute p st)).route = (setRoute p st).route := by
    simp [setRoute, onRouteHandler, sigSet_idem]
  exact ⟨congrArg Signal.value h, congrArg Signal.version h⟩

/-- C7 counterexample: on a path containing the deployment sub-path in the
middle rather than as a prefix, the handler publishes the path with that
occurrence replaced (JavaScript replace rewrites the first occurrence
anywhere), while prefix stripping as claimed would leave the path
unchanged. -/
theorem c7_counterexample :
    (onRouteHandler (State "/" "") "/x/template-ts-preact-htm/y"
        ⟨false, 0, 0⟩).1.route.value = "/x/y" ∧
    stripBase "/x/template-ts-preact-htm/y" = "/x/template-ts-preact-htm/y" ∧
    ("/x/y" : String) ≠ "/x/template-ts-preact-htm/y" := by
  refine ⟨by decide, by decide, by decide⟩

/-- C7 amended: on every navigation event the handler publishes the path
with the first occurrence of the deployment sub-path string replaced by
`/`; in particular when the path begins with the deployment sub-path, the
published route value is the root-relative remainder. -/
theorem c7_route_publish (st : AppState) (path : String) (data : RouteData)
    (rest : String) :
    (onRouteHandler st path data).1.route.value = jsReplace path basePath "/" ∧
    (onRouteHandler st (basePath ++ rest) data).1.route.value = "/" ++ rest := by
  constructor
  · simp [onRouteHandler, sigSet_value]
  · simp [onRouteHandler, sigSet_value, jsReplace_basePath]

/-- C8: a navigation event flagged as a history pop with recorded scroll
offset `(x, y)` makes the handler restore scroll to exactly `(x, y)`; a
forward navigation event resets scroll to `(0, 0)`. -/
theorem c8_scroll_behavior (st : AppState) (path : String) (x y : Int) :
    (onRouteHandler st path ⟨true, x, y⟩).2 = (x, y) ∧
    (onRouteHandler st path ⟨false, x, y⟩).2 = (0, 0) :=
  ⟨rfl, rfl⟩

/-- C9: a freshly constructed state initializes its route value to the
browser pathname concatenated with the query string, so with a non-empty
query string the initial route value carries the query string unstripped
(as a suffix). -/
theorem c9_initial_route_value (pathname search : String) :
    (State pathname search).route.value = pathname ++ search ∧
    ∃ pre, (State pathname search).route.value = pre ++ search :=
  ⟨rfl, pathname, rfl⟩

/-- C10: `State.Increase` and `State.Decrease` leave the route cell
unchanged, the navigation handler leaves the counter cell unchanged, and
the same holds for arbitrary sequences of counter operations and of
navigation events. -/
theorem c10_frame_separation (st : AppState) (p : String) (d : RouteData)
    (ops : List CounterOp) (evs : List (String × RouteData)) :
    (State.Increase st).route = st.route ∧
    (State.Decrease st).route = st.route ∧
    (onRouteHandler st p d).1.count = st.count ∧
    (applyCounterOps ops st).route = st.route ∧
    (applyNavEvents evs st).count = st.count :=
  ⟨rfl, rfl, rfl, applyCounterOps_route ops st, applyNavEvents_count evs st⟩

end App
